import Mathlib

/-! # Song catalog: data layer and HTTP handlers

A shallow embedding of `internal/data/song.go`, `internal/data/models.go` and
`cmd/api/songs.go`.

Conventions of the embedding.

* Go `int` and `int64` values are integers in `[-2^63, 2^63)`; arithmetic on
  them goes through `wrapInt` (two's complement wrap-around, 64-bit target).
* A Go slice is the list of its elements; the `nil` slice is the empty list.
* A slice expression `s[low:high]` is `sliceExpr`, which yields `none` where
  the Go runtime panics with "slice bounds out of range".
* `*sql.DB` is a record of response functions, one per SQL statement of
  `song.go`; every method of `SongModel` also returns the list of storage
  statements it issued, in order.
* Contexts, timeouts and logging carry no data and are left out; a timeout
  shows up as the storage error the driver returns.
-/

namespace data

/-! ## Go integers and slices -/

/-- Two's complement wrap-around of a Go `int` (64 bits). -/
def wrapInt (x : Int) : Int :=
  (x + 9223372036854775808) % 18446744073709551616 - 9223372036854775808

/-- Values a Go `int` can hold. -/
def isInt (x : Int) : Prop :=
  -9223372036854775808 ≤ x ∧ x < 9223372036854775808

instance (x : Int) : Decidable (isInt x) := by
  unfold isInt; infer_instance

/-- Result of running Go code that may stop with a runtime panic. -/
inductive Run (α : Type) where
  | returned (v : α)
  | panicked
  deriving DecidableEq, Repr

/-- The Go slice expression `s[low:high]`: it panics unless
`0 ≤ low ≤ high ≤ cap(s)`. The list holds the `len(s)` elements only, so the
upper bound is taken as `len(s)`; the one slice expression of `song.go` first
caps `high` at `len(s)`, where both bounds agree. -/
def sliceExpr {α : Type} (s : List α) (low high : Int) : Option (List α) :=
  if 0 ≤ low ∧ low ≤ high ∧ high ≤ (s.length : Int) then
    some ((s.drop low.toNat).take (high - low).toNat)
  else
    none

/-! ## Errors -/

/-- Errors that `database/sql` with the `lib/pq` driver hands back:
`sql.ErrNoRows`, a `*pq.Error` with its SQLSTATE code, any other error
(timeout, connection loss, conversion failure), or an error wrapping another
one. -/
inductive StorageError where
  | sqlErrNoRows
  | pqError (code : String)
  | other (msg : String)
  | wrapped (msg : String) (inner : StorageError)
  deriving DecidableEq, Repr

/-- The test `errors.Is(err, sql.ErrNoRows)`. -/
def StorageError.isErrNoRows : StorageError → Bool
  | .sqlErrNoRows => true
  | .pqError _ => false
  | .other _ => false
  | .wrapped _ inner => inner.isErrNoRows

/-- The test `errors.As(err, &pqErr)`: the code of the `*pq.Error` found in the
chain, if there is one. -/
def StorageError.asPqError : StorageError → Option String
  | .sqlErrNoRows => none
  | .pqError code => some code
  | .other _ => none
  | .wrapped _ inner => inner.asPqError

/-- The test `errors.As(err, &pqErr) && pqErr.Code == "23505"`. -/
def StorageError.isUniqueViolation (e : StorageError) : Bool :=
  e.asPqError == some "23505"

/-- Error values returned by the methods of `SongModel`: the three package
variables of `models.go`, or a storage error passed on as it came. -/
inductive GoError where
  | ErrNoRecordFound
  | ErrEditConflict
  | ErrAlreadyExists
  | storage (e : StorageError)
  deriving DecidableEq, Repr

/-! ## Data model -/

/-- A `time.Time` value, as an instant on the storage clock. -/
structure Time where
  instant : Int
  deriving DecidableEq, Repr

/-- The struct `Song`. -/
structure Song where
  ID : Int
  Song : String
  Group : String
  CreatedAt : Time
  UpdatedAt : Time
  Release : String
  Text : String
  Link : String
  deriving DecidableEq, Repr

/-- Modelled from the spec: the struct `Metadata` of the file `filters.go`,
which is not among the sources; its fields are the ones listed in section 6,
`{page, pageSize, firstPage, lastPage, totalRecords}`. -/
structure Metadata where
  CurrentPage : Int
  PageSize : Int
  FirstPage : Int
  LastPage : Int
  TotalRecords : Int
  deriving DecidableEq, Repr

/-- The composite literal `Metadata{}`. -/
def Metadata.zero : Metadata := ⟨0, 0, 0, 0, 0⟩

/-- Modelled from the spec: the function `calculateMetaData` of the file
`filters.go`, which is not among the sources. Section 4.3: if
`totalRecords == 0` the all-zero Metadata; otherwise `firstPage = 1` and
`lastPage = ceil(totalRecords / pageSize)` by integer ceiling division. -/
def calculateMetaData (totalRecords page pageSize : Int) : Metadata :=
  if totalRecords = 0 then
    Metadata.zero
  else
    { CurrentPage := page
      PageSize := pageSize
      FirstPage := 1
      LastPage := Int.tdiv (totalRecords + pageSize - 1) pageSize
      TotalRecords := totalRecords }

/-! ## Storage -/

/-- Outcome of `QueryRowContext(...).Scan(...)`: the scanned columns, or the
error `Scan` returned, in which case the destinations are left as they were. -/
inductive ScanResult (α : Type) where
  | ok (v : α)
  | err (e : StorageError)
  deriving DecidableEq, Repr

/-- Columns of `RETURNING id, created_at, updated_at`. -/
structure Returning where
  id : Int
  createdAt : Time
  updatedAt : Time
  deriving DecidableEq, Repr

/-- Outcome of `ExecContext`: an error, or a `sql.Result` whose
`RowsAffected()` gives a count or an error. -/
inductive ExecResult where
  | err (e : StorageError)
  | ok (rowsAffected : ScanResult Int)
  deriving DecidableEq, Repr

/-- A `*sql.Rows` cursor: one entry for each time `rows.Next()` answers true,
holding what `rows.Scan` then yields (the `count(*) OVER()` column and the
song columns, or an error), and the value of `rows.Err()` once `rows.Next()`
has answered false. -/
structure Rows where
  scans : List (ScanResult (Int × Song))
  final : Option StorageError
  deriving DecidableEq, Repr

/-- Outcome of `QueryContext`. -/
inductive QueryResult where
  | err (e : StorageError)
  | ok (rows : Rows)
  deriving DecidableEq, Repr

/-- The database handle `*sql.DB`, as the answers it gives to the six
statements of `song.go`. -/
structure DB where
  insertSong : String → String → String → String → String → ScanResult Returning
  updateSong : String → String → Int → ScanResult Time
  selectSongs : String → String → String → String → String → String → String →
    Int → Int → QueryResult
  selectSong : Int → ScanResult Song
  selectText : Int → ScanResult String
  deleteSong : Int → ExecResult

/-- A statement sent to storage, with its arguments. -/
inductive StorageCall where
  | insertSong (song group release text link : String)
  | updateSong (song group : String) (id : Int)
  | selectSongs (song group release text link sortColumn sortDirection : String)
      (limit offset : Int)
  | selectSong (id : Int)
  | selectText (id : Int)
  | deleteSong (id : Int)
  deriving DecidableEq, Repr

/-- A result together with the storage statements issued to obtain it. -/
structure Traced (α : Type) where
  calls : List StorageCall
  result : α
  deriving DecidableEq, Repr

/-- The struct `SongModel`. -/
structure SongModel where
  DB : DB

/-! ## `SongModel.GetLyrics` -/

/-- The method `SongModel.GetLyrics`. The helper `splitTextIntoVerses` is not
among the sources and is taken as a parameter. The three components of the
returned value are the verse slice, the metadata and the error (`none` for
`nil`). -/
def SongModel.GetLyrics (s : SongModel) (splitTextIntoVerses : String → List String)
    (id : Int) (page pageSize : Int) :
    Traced (Run (List String × Metadata × Option GoError)) :=
  if id < 1 then
    ⟨[], .returned ([], Metadata.zero, some .ErrNoRecordFound)⟩
  else
    match s.DB.selectText id with
    | .err e =>
      if e.isErrNoRows then
        ⟨[.selectText id], .returned ([], Metadata.zero, some .ErrNoRecordFound)⟩
      else
        ⟨[.selectText id], .returned ([], Metadata.zero, some (.storage e))⟩
    | .ok text =>
      let verses := splitTextIntoVerses text
      let totalRecords : Int := verses.length
      let start := wrapInt (wrapInt (page - 1) * pageSize)
      let end0 := wrapInt (start + pageSize)
      let end1 := if end0 > totalRecords then totalRecords else end0
      let metadata := calculateMetaData totalRecords page pageSize
      match sliceExpr verses start end1 with
      | none => ⟨[.selectText id], .panicked⟩
      | some vs => ⟨[.selectText id], .returned (vs, metadata, none)⟩

/-! ## Filters -/

/-- Modelled from the spec: the struct `Filters` of the file `filters.go`,
which is not among the sources; section 3 gives its content (page, page size,
sort key, safelist) and `cmd/api/songs.go` the field names; the field `Sort`
is `SortKey` here, `Sort` being reserved. -/
structure Filters where
  Page : Int
  PageSize : Int
  SortKey : String
  SortSafelist : List String
  deriving DecidableEq, Repr

/-- Modelled from the spec: the method `Filters.sortColumn` of `filters.go`;
section 4.2: strips a leading `-` from the sort key. -/
def Filters.sortColumn (f : Filters) : String :=
  if f.SortKey.startsWith "-" then f.SortKey.drop 1 else f.SortKey

/-- Modelled from the spec: the method `Filters.sortDirection` of
`filters.go`; section 4.2: descending if the key starts with `-`, else
ascending. -/
def Filters.sortDirection (f : Filters) : String :=
  if f.SortKey.startsWith "-" then "DESC" else "ASC"

/-- Modelled from the spec: the method `Filters.limit` of `filters.go`;
section 4.2: `Limit = pageSize`. -/
def Filters.limit (f : Filters) : Int := f.PageSize

/-- Modelled from the spec: the method `Filters.offset` of `filters.go`;
section 4.2: `Offset = (page - 1) * pageSize`, in Go `int` arithmetic. -/
def Filters.offset (f : Filters) : Int :=
  wrapInt (wrapInt (f.Page - 1) * f.PageSize)

/-! ## `SongModel.Insert`, `Update`, `GetAll`, `Get`, `Delete` -/

/-- The method `SongModel.Insert`: the song after the call, and the error. -/
def SongModel.Insert (s : SongModel) (song : Song) : Traced (Song × Option GoError) :=
  let calls := [StorageCall.insertSong song.Song song.Group song.Release song.Text song.Link]
  match s.DB.insertSong song.Song song.Group song.Release song.Text song.Link with
  | .err e =>
    if e.isUniqueViolation then
      ⟨calls, (song, some .ErrAlreadyExists)⟩
    else
      ⟨calls, (song, some (.storage e))⟩
  | .ok r =>
    ⟨calls, ({ song with ID := r.id, CreatedAt := r.createdAt, UpdatedAt := r.updatedAt }, none)⟩

/-- The method `SongModel.Update`: the song after the call, and the error. -/
def SongModel.Update (s : SongModel) (song : Song) : Traced (Song × Option GoError) :=
  let calls := [StorageCall.updateSong song.Song song.Group song.ID]
  match s.DB.updateSong song.Song song.Group song.ID with
  | .err e =>
    if e.isErrNoRows then
      ⟨calls, (song, some .ErrEditConflict)⟩
    else if e.isUniqueViolation then
      ⟨calls, (song, some .ErrAlreadyExists)⟩
    else
      ⟨calls, (song, some (.storage e))⟩
  | .ok updatedAt =>
    ⟨calls, ({ song with UpdatedAt := updatedAt }, none)⟩

/-- The loop `for rows.Next() { ... }` of `GetAll`, run on the entries still
to come with the current values of `totalRecords` and `songs`: the error of
the first failing `rows.Scan`, or the two variables after the last row. -/
def scanRows : List (ScanResult (Int × Song)) → Int → List Song →
    Except StorageError (Int × List Song)
  | [], totalRecords, songs => .ok (totalRecords, songs)
  | .err e :: _, _, _ => .error e
  | .ok (count, song) :: rest, _, songs => scanRows rest count (songs ++ [song])

/-- The method `SongModel.GetAll`. -/
def SongModel.GetAll (s : SongModel) (song group release text link : String)
    (filters : Filters) : Traced (List Song × Metadata × Option GoError) :=
  let calls := [StorageCall.selectSongs song group release text link
    filters.sortColumn filters.sortDirection filters.limit filters.offset]
  match s.DB.selectSongs song group release text link
      filters.sortColumn filters.sortDirection filters.limit filters.offset with
  | .err e => ⟨calls, ([], Metadata.zero, some (.storage e))⟩
  | .ok rows =>
    match scanRows rows.scans 0 [] with
    | .error e => ⟨calls, ([], Metadata.zero, some (.storage e))⟩
    | .ok (totalRecords, songs) =>
      match rows.final with
      | some e => ⟨calls, ([], Metadata.zero, some (.storage e))⟩
      | none =>
        ⟨calls, (songs, calculateMetaData totalRecords filters.Page filters.PageSize, none)⟩

/-- The method `SongModel.Get`: the song (`none` for the `nil` pointer) and
the error. -/
def SongModel.Get (s : SongModel) (id : Int) : Traced (Option Song × Option GoError) :=
  if id < 1 then
    ⟨[], (none, some .ErrNoRecordFound)⟩
  else
    match s.DB.selectSong id with
    | .err e =>
      if e.isErrNoRows then
        ⟨[.selectSong id], (none, some .ErrNoRecordFound)⟩
      else
        ⟨[.selectSong id], (none, some (.storage e))⟩
    | .ok song => ⟨[.selectSong id], (some song, none)⟩

/-- The method `SongModel.Delete`. -/
def SongModel.Delete (s : SongModel) (id : Int) : Traced (Option GoError) :=
  if id < 1 then
    ⟨[], some .ErrNoRecordFound⟩
  else
    match s.DB.deleteSong id with
    | .err e => ⟨[.deleteSong id], some (.storage e)⟩
    | .ok (.err e) => ⟨[.deleteSong id], some (.storage e)⟩
    | .ok (.ok rowsAffected) =>
      if rowsAffected = 0 then
        ⟨[.deleteSong id], some .ErrNoRecordFound⟩
      else
        ⟨[.deleteSong id], none⟩

/-- The struct `Models`. -/
structure Models where
  Songs : SongModel

/-- The function `NewModels`. -/
def NewModels (db : DB) : Models := { Songs := { DB := db } }

end data

/-! ## Validation -/

namespace validator

/-- Modelled from the spec: the struct `Validator` of the package
`internal/validator`, which is not among the sources; section 4.1: named
error messages keyed by field. The Go map is kept as an association list in
insertion order. -/
structure Validator where
  Errors : List (String × String)
  deriving DecidableEq, Repr

/-- Modelled from the spec: the constructor `validator.New`, with no error
recorded. -/
def New : Validator := { Errors := [] }

/-- Modelled from the spec: the method `Validator.Valid`; section 4.1: whether
zero errors have been recorded. -/
def Validator.Valid (v : Validator) : Bool := v.Errors.isEmpty

/-- Modelled from the spec: the method `Validator.AddError`; section 4.1: the
message is recorded only if no message for that field exists yet. -/
def Validator.AddError (v : Validator) (key message : String) : Validator :=
  if v.Errors.any (fun e => e.1 == key) then v
  else { Errors := v.Errors ++ [(key, message)] }

/-- Modelled from the spec: the method `Validator.Check`; section 4.1: records
`message` under `field` only if `condition` is false. -/
def Validator.Check (v : Validator) (ok : Bool) (key message : String) : Validator :=
  if ok then v else v.AddError key message

end validator

namespace data

/-- The function `ValidateSong`. -/
def ValidateSong (v : validator.Validator) (song : Song) : validator.Validator :=
  let v := v.Check (song.Song != "") "song" "must be provided"
  v.Check (song.Group != "") "group" "must be provided"

/-- Modelled from the spec: the function `ValidateFilters` of `filters.go`,
which is not among the sources; section 4.2: checks `page` in
`[1, 10_000_000]`, `pageSize` in `[1, 100]` and that the sort key is in the
safelist, each violation recorded under `page`, `page_size`, `sort`. The spec
does not give the message texts. -/
def ValidateFilters (v : validator.Validator) (f : Filters) : validator.Validator :=
  let v := v.Check (decide (1 ≤ f.Page ∧ f.Page ≤ 10000000)) "page"
    "must be between 1 and 10000000"
  let v := v.Check (decide (1 ≤ f.PageSize ∧ f.PageSize ≤ 100)) "page_size"
    "must be between 1 and 100"
  v.Check (f.SortSafelist.contains f.SortKey) "sort" "invalid sort value"

end data

/-! ## HTTP handlers -/

namespace api

/-- The query string of a request, `url.Values`, as key and value pairs. -/
abbrev Values := List (String × String)

/-- The part of `*http.Request` the handlers read: query string, path
parameters and body. -/
structure Request where
  query : Values
  params : List (String × String)
  body : String
  deriving DecidableEq, Repr

/-- The anonymous request struct of `addSongHandler`. -/
structure AddSongRequest where
  Song : String
  Group : String
  deriving DecidableEq, Repr

/-- The value returned by `fetchSongDetail`, of which `addSongHandler` reads
the fields `Release`, `Text` and `Link`. -/
structure SongDetail where
  Release : String
  Text : String
  Link : String
  deriving DecidableEq, Repr

/-- The map `envelope` that the handlers of `songs.go` pass to `writeJSON`. -/
inductive envelope where
  | song (song : data.Song)
  | songs (songs : List data.Song) (metadata : data.Metadata)
  | lyrics (lyrics : List String) (metadata : data.Metadata)
  deriving DecidableEq, Repr

/-- What a handler does that is visible outside it, in order: calls into the
data layer, responses written through the helpers of `application`, and a
runtime panic leaving the handler. -/
inductive Event where
  | Insert (song : data.Song)
  | GetAll (song group release text link : String) (filters : data.Filters)
  | GetLyrics (id page pageSize : Int)
  | badRequestResponse
  | serverErrorResponse
  | notFoundResponse
  | failedValidationResponse (errors : List (String × String))
  | writeJSON (status : Nat) (data : envelope)
  | panic
  deriving DecidableEq, Repr

/-- The struct `application`: the models, and the methods and helpers that
the handlers call but whose files are not among the sources, taken as
parameters. An error of a helper is kept as its text. -/
structure application where
  models : data.Models
  splitTextIntoVerses : String → List String
  readJSON : Request → Except String AddSongRequest
  fetchSongDetail : String → String → Except String SongDetail
  readIDParam : Request → Except String Int
  readString : Values → String → String → String
  readInt : Values → String → Int → validator.Validator → Int × validator.Validator
  writeJSON : Nat → envelope → Option String

/-- The constant `http.StatusOK`. -/
def StatusOK : Nat := 200

/-- The constant `http.StatusCreated`. -/
def StatusCreated : Nat := 201

/-- The zero value of `time.Time`. -/
def zeroTime : data.Time := { instant := 0 }

/-- The handler `addSongHandler`. -/
def addSongHandler (app : application) (r : Request) : List Event :=
  match app.readJSON r with
  | .error _ => [.badRequestResponse]
  | .ok req =>
    match app.fetchSongDetail req.Song req.Group with
    | .error _ => [.serverErrorResponse]
    | .ok songDetail =>
      let song : data.Song :=
        { ID := 0, Song := req.Song, Group := req.Group, CreatedAt := zeroTime,
          UpdatedAt := zeroTime, Release := songDetail.Release, Text := songDetail.Text,
          Link := songDetail.Link }
      let v := data.ValidateSong validator.New song
      if !v.Valid then
        [.failedValidationResponse v.Errors]
      else
        let inserted := (app.models.Songs.Insert song).result
        if inserted.2 = some data.GoError.ErrAlreadyExists then
          [.Insert song,
            .failedValidationResponse
              (v.AddError "song" "a song of this group is already exists").Errors]
        else
          match app.writeJSON StatusCreated (.song inserted.1) with
          | some _ =>
            [.Insert song, .writeJSON StatusCreated (.song inserted.1), .serverErrorResponse]
          | none =>
            [.Insert song, .writeJSON StatusCreated (.song inserted.1)]

/-- The sort safelist of `listSongsHandler`. -/
def listSortSafelist : List String :=
  ["id", "song", "group", "release", "text", "link",
    "-id", "-song", "-group", "-release", "-text", "-link"]

/-- The handler `listSongsHandler`. -/
def listSongsHandler (app : application) (r : Request) : List Event :=
  let v := validator.New
  let qs := r.query
  let song := app.readString qs "song" ""
  let group := app.readString qs "group" ""
  let release := app.readString qs "releaseDate" ""
  let text := app.readString qs "text" ""
  let link := app.readString qs "link" ""
  let page := app.readInt qs "page" 1 v
  let pageSize := app.readInt qs "page_size" 5 page.2
  let filters : data.Filters :=
    { Page := page.1, PageSize := pageSize.1, SortKey := app.readString qs "sort" "id",
      SortSafelist := listSortSafelist }
  let v := data.ValidateFilters pageSize.2 filters
  if !v.Valid then
    [.failedValidationResponse v.Errors]
  else
    match (app.models.Songs.GetAll song group release text link filters).result with
    | (_, _, some _) =>
      [.GetAll song group release text link filters, .serverErrorResponse]
    | (songs, metadata, none) =>
      match app.writeJSON StatusOK (.songs songs metadata) with
      | some _ =>
        [.GetAll song group release text link filters,
          .writeJSON StatusOK (.songs songs metadata), .serverErrorResponse]
      | none =>
        [.GetAll song group release text link filters,
          .writeJSON StatusOK (.songs songs metadata)]

/-- The handler `showLyricsHandler`. -/
def showLyricsHandler (app : application) (r : Request) : List Event :=
  let v := validator.New
  let qs := r.query
  match app.readIDParam r with
  | .error _ => [.notFoundResponse]
  | .ok id =>
    let page := app.readInt qs "page" 1 v
    let pageSize := app.readInt qs "page_size" 1 page.2
    match (app.models.Songs.GetLyrics app.splitTextIntoVerses id page.1 pageSize.1).result with
    | .panicked => [.GetLyrics id page.1 pageSize.1, .panic]
    | .returned (_, _, some err) =>
      if err = data.GoError.ErrNoRecordFound then
        [.GetLyrics id page.1 pageSize.1, .notFoundResponse]
      else
        [.GetLyrics id page.1 pageSize.1, .serverErrorResponse]
    | .returned (lyrics, metadata, none) =>
      match app.writeJSON StatusOK (.lyrics lyrics metadata) with
      | some _ =>
        [.GetLyrics id page.1 pageSize.1, .writeJSON StatusOK (.lyrics lyrics metadata),
          .serverErrorResponse]
      | none =>
        [.GetLyrics id page.1 pageSize.1, .writeJSON StatusOK (.lyrics lyrics metadata)]

end api

/-! ## Storage and helper instances for evaluation

Instances of the parameters of the embedding (storage answers, the verse
splitter, the helpers of `application`), on which the methods and handlers
are evaluated at concrete inputs. -/

namespace fixture

open data

/-- A storage on which every statement fails with the error `e`. -/
def failingDB (e : StorageError) : DB where
  insertSong := fun _ _ _ _ _ => .err e
  updateSong := fun _ _ _ => .err e
  selectSongs := fun _ _ _ _ _ _ _ _ _ => .err e
  selectSong := fun _ => .err e
  selectText := fun _ => .err e
  deleteSong := fun _ => .err e

/-- The answer to the `SELECT` of `GetAll` when the rows that satisfy the five
filter predicates are `found`, already in the requested order: PostgreSQL
rejects a negative `LIMIT` or `OFFSET` (SQLSTATE 2201W, 2201X); otherwise the
rows after the first `offset` ones, at most `limit` of them, each carrying
`count(*) OVER()`, the number of all rows found. -/
def pagedSelect (found : List Song) (limit offset : Int) : QueryResult :=
  if limit < 0 then .err (.pqError "2201W")
  else if offset < 0 then .err (.pqError "2201X")
  else
    .ok { scans := ((found.drop offset.toNat).take limit.toNat).map
            (fun song => ScanResult.ok ((found.length : Int), song))
          final := none }

/-- A storage whose `songs` relation answers the `SELECT` of `GetAll` with the
rows `found`, whatever the filter texts; the other statements are not used. -/
def pagedDB (found : List Song) : DB :=
  { failingDB (.other "not used") with
    selectSongs := fun _ _ _ _ _ _ _ limit offset => pagedSelect found limit offset }

/-- A verse splitter for evaluation: cuts the text at each pair of line
breaks. -/
def cutVerses : List Char → List Char → List String
  | [], cur => [String.mk cur.reverse]
  | '\n' :: '\n' :: rest, cur => String.mk cur.reverse :: cutVerses rest []
  | c :: rest, cur => cutVerses rest (c :: cur)

/-- The splitter `cutVerses` on a string. -/
def splitOnBlankLine (text : String) : List String := cutVerses text.toList []

/-- A lyric text of three verses. -/
def lyricText : String := "one\n\ntwo\n\nthree"

/-- A stored song with id 1 and the three-verse text. -/
def storedSong : Song :=
  { ID := 1, Song := "Tune", Group := "Band", CreatedAt := ⟨100⟩, UpdatedAt := ⟨100⟩,
    Release := "2006", Text := lyricText, Link := "http://example.org/tune" }

/-- Three stored songs, as found by a query in the order of their ids. -/
def threeSongs : List Song :=
  [storedSong,
    { storedSong with ID := 2, Song := "Air" },
    { storedSong with ID := 3, Song := "Reel" }]

/-- The filters of `listSongsHandler` for the given page and page size, with
the default sort key. -/
def listFilters (page pageSize : Int) : Filters :=
  { Page := page, PageSize := pageSize, SortKey := "id",
    SortSafelist := api.listSortSafelist }

/-- A storage whose `SELECT` of `GetAll` yields the cursor `rows`; the other
statements are not used. -/
def cursorDB (rows : Rows) : DB :=
  { failingDB (.other "not used") with
    selectSongs := fun _ _ _ _ _ _ _ _ _ => .ok rows }

/-- A storage holding the single song `storedSong`; writes fail with
`insertError`. -/
def oneSongDB (insertError : StorageError) : DB where
  insertSong := fun _ _ _ _ _ => .err insertError
  updateSong := fun _ _ id =>
    if id = 1 then .ok ⟨200⟩ else .err .sqlErrNoRows
  selectSongs := fun _ _ _ _ _ _ _ limit offset => pagedSelect [storedSong] limit offset
  selectSong := fun id => if id = 1 then .ok storedSong else .err .sqlErrNoRows
  selectText := fun id => if id = 1 then .ok lyricText else .err .sqlErrNoRows
  deleteSong := fun id => if id = 1 then .ok (.ok 1) else .ok (.ok 0)

/-- The value of a string of decimal digits. -/
def digitsValue : List Char → Nat → Option Nat
  | [], acc => some acc
  | c :: cs, acc =>
    if c.isDigit then digitsValue cs (acc * 10 + (c.toNat - 48)) else none

/-- A decimal integer parser, standing in for `strconv.Atoi`. -/
def atoi (s : String) : Option Int :=
  match s.toList with
  | [] => none
  | '-' :: c :: cs => (digitsValue (c :: cs) 0).map (fun n => -(n : Int))
  | cs => (digitsValue cs 0).map (fun n => (n : Int))

/-- An application over the storage `db`, with stand-ins for the helpers: the
body of a request is `song/group`, read by `readJSON`; `fetchSongDetail`
answers with fixed details; `readIDParam` reads the path parameter `id`;
`readString` and `readInt` read a key of the query string, falling back to
the default, `readInt` recording an error for a value that is not an
integer; `writeJSON` succeeds. -/
def app (db : DB) : api.application where
  models := NewModels db
  splitTextIntoVerses := splitOnBlankLine
  readJSON := fun r =>
    match r.body.toList.dropWhile (fun c => c != '/') with
    | _ :: group =>
      .ok { Song := String.mk (r.body.toList.takeWhile (fun c => c != '/')),
            Group := String.mk group }
    | [] => .error "body contains badly-formed JSON"
  fetchSongDetail := fun _ _ =>
    .ok { Release := "2006", Text := lyricText, Link := "http://example.org/tune" }
  readIDParam := fun r =>
    match (r.params.lookup "id").bind atoi with
    | some id => if id < 1 then .error "invalid id parameter" else .ok id
    | none => .error "invalid id parameter"
  readString := fun qs key defaultValue =>
    match qs.lookup key with
    | some s => if s = "" then defaultValue else s
    | none => defaultValue
  readInt := fun qs key defaultValue v =>
    match qs.lookup key with
    | some s =>
      if s = "" then (defaultValue, v)
      else
        match atoi s with
        | some i => (i, v)
        | none => (defaultValue, v.AddError key "must be an integer value")
    | none => (defaultValue, v)
  writeJSON := fun _ _ => none

end fixture

/-! ## Reading a song page by page -/

namespace data

/-- The verse slice that `GetLyrics` returns for one page: `none` when the
call panics or returns an error. -/
def lyricsPage (s : SongModel) (splitTextIntoVerses : String → List String)
    (id page pageSize : Int) : Option (List String) :=
  match (s.GetLyrics splitTextIntoVerses id page pageSize).result with
  | .returned (verses, _, none) => some verses
  | .returned (_, _, some _) => none
  | .panicked => none

/-- The verse slices that `GetLyrics` returns for the pages `1, 2, ..., n`,
concatenated in that order: `none` when one of the calls panics or returns an
error. -/
def lyricsPages (s : SongModel) (splitTextIntoVerses : String → List String)
    (id pageSize : Int) : Nat → Option (List String)
  | 0 => some []
  | n + 1 =>
    match lyricsPages s splitTextIntoVerses id pageSize n,
      lyricsPage s splitTextIntoVerses id ((n : Int) + 1) pageSize with
    | some front, some page => some (front ++ page)
    | _, _ => none

end data

/-! ## Properties of the data layer -/

namespace data

/-- An error carrying a `*pq.Error` does not match `sql.ErrNoRows`. -/
theorem StorageError.isErrNoRows_of_asPqError (e : StorageError) (code : String)
    (h : e.asPqError = some code) : e.isErrNoRows = false := by
  induction e with
  | sqlErrNoRows => simp [StorageError.asPqError] at h
  | pqError c => rfl
  | other m => rfl
  | wrapped m inner ih => exact ih h

/-- A uniqueness violation does not match `sql.ErrNoRows`. -/
theorem StorageError.isErrNoRows_of_isUniqueViolation (e : StorageError)
    (h : e.isUniqueViolation = true) : e.isErrNoRows = false := by
  unfold StorageError.isUniqueViolation at h
  exact StorageError.isErrNoRows_of_asPqError e "23505" (by simpa using h)

/-- C6: for every id below 1, `Get`, `Delete` and `GetLyrics` return
`ErrNoRecordFound` with nil or zero-valued results, and issue no storage
statement. -/
theorem nonpositive_id_not_found_without_storage (s : SongModel)
    (splitTextIntoVerses : String → List String) (id page pageSize : Int) (h : id < 1) :
    s.Get id = ⟨[], (none, some .ErrNoRecordFound)⟩ ∧
    s.Delete id = ⟨[], some .ErrNoRecordFound⟩ ∧
    s.GetLyrics splitTextIntoVerses id page pageSize =
      ⟨[], .returned ([], Metadata.zero, some .ErrNoRecordFound)⟩ := by
  refine ⟨?_, ?_, ?_⟩
  · simp [SongModel.Get, h]
  · simp [SongModel.Delete, h]
  · simp [SongModel.GetLyrics, h]

/-- Witness of C6 at id 0 on a storage that holds a song. -/
theorem nonpositive_id_not_found_without_storage_witness :
    (0 : Int) < 1 ∧
    (SongModel.mk (fixture.oneSongDB .sqlErrNoRows)).Get 0 =
      ⟨[], (none, some .ErrNoRecordFound)⟩ ∧
    (SongModel.mk (fixture.oneSongDB .sqlErrNoRows)).Delete 0 =
      ⟨[], some .ErrNoRecordFound⟩ ∧
    (SongModel.mk (fixture.oneSongDB .sqlErrNoRows)).GetLyrics fixture.splitOnBlankLine 0 1 1 =
      ⟨[], .returned ([], Metadata.zero, some .ErrNoRecordFound)⟩ :=
  ⟨by decide,
    nonpositive_id_not_found_without_storage _ fixture.splitOnBlankLine 0 1 1 (by decide)⟩

/-- C7: the outcomes of `Update`. When the `UPDATE` returns no row
(`sql.ErrNoRows`) the error is `ErrEditConflict`; when it reports a uniqueness
violation (code 23505) the error is `ErrAlreadyExists`; any other storage
error comes back unchanged; on success the error is nil, `UpdatedAt` holds the
timestamp from storage and every other field of the song is as before. In all
cases exactly one statement is issued. -/
theorem update_outcomes (s : SongModel) (song : Song) :
    (∀ e, s.DB.updateSong song.Song song.Group song.ID = .err e → e.isErrNoRows = true →
      (s.Update song).result.2 = some .ErrEditConflict) ∧
    (∀ e, s.DB.updateSong song.Song song.Group song.ID = .err e →
      e.isUniqueViolation = true →
      (s.Update song).result.2 = some .ErrAlreadyExists) ∧
    (∀ e, s.DB.updateSong song.Song song.Group song.ID = .err e → e.isErrNoRows = false →
      e.isUniqueViolation = false →
      (s.Update song).result.2 = some (.storage e)) ∧
    (∀ t, s.DB.updateSong song.Song song.Group song.ID = .ok t →
      (s.Update song).result =
        ({ ID := song.ID, Song := song.Song, Group := song.Group,
           CreatedAt := song.CreatedAt, UpdatedAt := t, Release := song.Release,
           Text := song.Text, Link := song.Link }, none)) ∧
    (s.Update song).calls = [.updateSong song.Song song.Group song.ID] := by
  refine ⟨?_, ?_, ?_, ?_, ?_⟩
  · intro e he hn
    simp [SongModel.Update, he, hn]
  · intro e he hu
    have hn := StorageError.isErrNoRows_of_isUniqueViolation e hu
    simp [SongModel.Update, he, hn, hu]
  · intro e he hn hu
    simp [SongModel.Update, he, hn, hu]
  · intro t ht
    simp [SongModel.Update, ht]
  · unfold SongModel.Update
    split
    · split
      · rfl
      · split <;> rfl
    · rfl

/-- Witness of C7: one storage for each of the four outcomes. -/
theorem update_outcomes_witness :
    ((SongModel.mk (fixture.failingDB .sqlErrNoRows)).Update fixture.storedSong).result.2 =
      some .ErrEditConflict ∧
    ((SongModel.mk (fixture.failingDB (.pqError "23505"))).Update fixture.storedSong).result.2 =
      some .ErrAlreadyExists ∧
    ((SongModel.mk (fixture.failingDB (.other "context deadline exceeded"))).Update
      fixture.storedSong).result.2 =
      some (.storage (.other "context deadline exceeded")) ∧
    ((SongModel.mk (fixture.oneSongDB .sqlErrNoRows)).Update fixture.storedSong).result =
      ({ ID := 1, Song := "Tune", Group := "Band", CreatedAt := ⟨100⟩, UpdatedAt := ⟨200⟩,
         Release := "2006", Text := fixture.lyricText, Link := "http://example.org/tune" },
       none) :=
  ⟨(update_outcomes ⟨fixture.failingDB .sqlErrNoRows⟩ fixture.storedSong).1 _ rfl rfl,
    (update_outcomes ⟨fixture.failingDB (.pqError "23505")⟩ fixture.storedSong).2.1 _ rfl
      (by decide),
    (update_outcomes ⟨fixture.failingDB (.other "context deadline exceeded")⟩
      fixture.storedSong).2.2.1 _ rfl rfl (by decide),
    (update_outcomes ⟨fixture.oneSongDB .sqlErrNoRows⟩ fixture.storedSong).2.2.2.1 ⟨200⟩ rfl⟩

/-- C8: the outcomes of `Insert`. The error is `ErrAlreadyExists` exactly when
the `INSERT` reports a uniqueness violation (code 23505); every other storage
error comes back unchanged; on success the error is nil, `ID`, `CreatedAt` and
`UpdatedAt` hold the values storage returned and the title, group, release,
text and link are as before. -/
theorem insert_outcomes (s : SongModel) (song : Song) :
    ((s.Insert song).result.2 = some .ErrAlreadyExists ↔
      ∃ e, s.DB.insertSong song.Song song.Group song.Release song.Text song.Link = .err e ∧
        e.isUniqueViolation = true) ∧
    (∀ e, s.DB.insertSong song.Song song.Group song.Release song.Text song.Link = .err e →
      e.isUniqueViolation = false → (s.Insert song).result.2 = some (.storage e)) ∧
    (∀ r, s.DB.insertSong song.Song song.Group song.Release song.Text song.Link = .ok r →
      (s.Insert song).result =
        ({ ID := r.id, Song := song.Song, Group := song.Group, CreatedAt := r.createdAt,
           UpdatedAt := r.updatedAt, Release := song.Release, Text := song.Text,
           Link := song.Link }, none)) := by
  refine ⟨?_, ?_, ?_⟩
  · cases hq : s.DB.insertSong song.Song song.Group song.Release song.Text song.Link with
    | ok r => simp [SongModel.Insert, hq]
    | err e =>
      cases hu : e.isUniqueViolation <;> simp [SongModel.Insert, hq, hu]
  · intro e he hu
    simp [SongModel.Insert, he, hu]
  · intro r hr
    simp [SongModel.Insert, hr]

/-- Witness of C8: a storage that reports a uniqueness violation, one that
times out, and one that inserts. -/
theorem insert_outcomes_witness :
    ((SongModel.mk (fixture.failingDB (.pqError "23505"))).Insert fixture.storedSong).result.2 =
      some .ErrAlreadyExists ∧
    ((SongModel.mk (fixture.failingDB (.other "context deadline exceeded"))).Insert
      fixture.storedSong).result.2 =
      some (.storage (.other "context deadline exceeded")) ∧
    ((SongModel.mk { fixture.failingDB .sqlErrNoRows with
        insertSong := fun _ _ _ _ _ => .ok ⟨7, ⟨300⟩, ⟨301⟩⟩ }).Insert fixture.storedSong).result =
      ({ ID := 7, Song := "Tune", Group := "Band", CreatedAt := ⟨300⟩, UpdatedAt := ⟨301⟩,
         Release := "2006", Text := fixture.lyricText, Link := "http://example.org/tune" },
       none) :=
  ⟨(insert_outcomes ⟨fixture.failingDB (.pqError "23505")⟩ fixture.storedSong).1.2
      ⟨_, rfl, by decide⟩,
    (insert_outcomes ⟨fixture.failingDB (.other "context deadline exceeded")⟩
      fixture.storedSong).2.1 _ rfl (by decide),
    (insert_outcomes ⟨{ fixture.failingDB .sqlErrNoRows with
        insertSong := fun _ _ _ _ _ => .ok ⟨7, ⟨300⟩, ⟨301⟩⟩ }⟩ fixture.storedSong).2.2
      ⟨7, ⟨300⟩, ⟨301⟩⟩ rfl⟩

/-- The scanning loop stops at the first failing `rows.Scan` with its error,
whatever was decoded before. -/
theorem scanRows_err (pre : List (Int × Song)) (e : StorageError)
    (post : List (ScanResult (Int × Song))) (totalRecords : Int) (songs : List Song) :
    scanRows (pre.map ScanResult.ok ++ .err e :: post) totalRecords songs = .error e := by
  induction pre generalizing totalRecords songs with
  | nil => rfl
  | cons row rest ih =>
    obtain ⟨count, song⟩ := row
    simpa [scanRows] using ih count (songs ++ [song])

/-- When every `rows.Scan` succeeds the loop ends with the count of the last
row (the initial value when there is no row) and all the songs, in order. -/
theorem scanRows_ok (all : List (Int × Song)) (totalRecords : Int) (songs : List Song) :
    scanRows (all.map ScanResult.ok) totalRecords songs =
      .ok ((all.map Prod.fst).getLastD totalRecords, songs ++ all.map Prod.snd) := by
  induction all generalizing totalRecords songs with
  | nil => simp only [List.map_nil, scanRows, List.getLastD_nil, List.append_nil]
  | cons row rest ih =>
    obtain ⟨count, song⟩ := row
    simp only [List.map_cons, scanRows]
    rw [ih count (songs ++ [song]), List.getLastD_cons, List.append_assoc]
    rfl

/-- C9: storage failures of `GetAll`. Whether `QueryContext` fails, a
`rows.Scan` fails after any number of rows were decoded, or `rows.Err()`
reports an error after the iteration, `GetAll` returns the nil slice, the
zero-valued Metadata and the storage error as it came; no decoded row is
returned. -/
theorem getAll_storage_failure (s : SongModel) (song group release text link : String)
    (filters : Filters) :
    (∀ e, s.DB.selectSongs song group release text link filters.sortColumn
        filters.sortDirection filters.limit filters.offset = .err e →
      (s.GetAll song group release text link filters).result =
        ([], Metadata.zero, some (.storage e))) ∧
    (∀ (rows : Rows) (pre : List (Int × Song)) (e : StorageError)
        (post : List (ScanResult (Int × Song))), s.DB.selectSongs song group release text link filters.sortColumn
        filters.sortDirection filters.limit filters.offset = .ok rows →
      rows.scans = pre.map ScanResult.ok ++ .err e :: post →
      (s.GetAll song group release text link filters).result =
        ([], Metadata.zero, some (.storage e))) ∧
    (∀ (rows : Rows) (all : List (Int × Song)) (e : StorageError), s.DB.selectSongs song group release text link filters.sortColumn
        filters.sortDirection filters.limit filters.offset = .ok rows →
      rows.scans = all.map ScanResult.ok → rows.final = some e →
      (s.GetAll song group release text link filters).result =
        ([], Metadata.zero, some (.storage e))) := by
  refine ⟨?_, ?_, ?_⟩
  · intro e he
    simp [SongModel.GetAll, he]
  · intro rows pre e post hq hs
    simp [SongModel.GetAll, hq, hs, scanRows_err]
  · intro rows all e hq hs hf
    simp [SongModel.GetAll, hq, hs, hf, scanRows_ok]

end data

namespace data

/-- A value in the range of a Go `int` is not changed by the wrap-around. -/
theorem wrapInt_of_isInt (x : Int) (h : isInt x) : wrapInt x = x := by
  unfold wrapInt
  unfold isInt at h
  omega

/-- The slice expression with bounds in range is the elements from `low`
up to `high`. -/
theorem sliceExpr_of_bounds {α : Type} (s : List α) (low high : Nat)
    (h1 : low ≤ high) (h2 : high ≤ s.length) :
    sliceExpr s (low : Int) (high : Int) = some ((s.take high).drop low) := by
  unfold sliceExpr
  have hc : (0 : Int) ≤ (low : Int) ∧ (low : Int) ≤ (high : Int) ∧
      (high : Int) ≤ (s.length : Int) := by omega
  rw [if_pos hc, List.drop_take]
  congr 2
  omega

/-- C3: a page that starts inside the verse sequence. For an existing song
whose text splits into `vs`, a page of at least 1 and a page size of at least
1 with `start = (page-1)*pageSize < len(vs)`, `GetLyrics` returns the verses
`vs[start .. min(start+pageSize, len(vs)))` in their order, a nil error, and
the Metadata that the calculator gives for `(len(vs), page, pageSize)`. The
arguments are Go `int` values and the slice has at most `2^62` elements. -/
theorem getLyrics_page_within (s : SongModel) (splitTextIntoVerses : String → List String)
    (id page pageSize : Int) (text : String)
    (hid : 1 ≤ id) (htext : s.DB.selectText id = .ok text)
    (hpage : 1 ≤ page) (hpageInt : isInt page)
    (hsize : 1 ≤ pageSize) (hsizeInt : isInt pageSize)
    (hlen : ((splitTextIntoVerses text).length : Int) ≤ 4611686018427387904)
    (hstart : (page - 1) * pageSize < ((splitTextIntoVerses text).length : Int)) :
    s.GetLyrics splitTextIntoVerses id page pageSize =
      ⟨[.selectText id],
        .returned
          (((splitTextIntoVerses text).take
              (min (((page - 1) * pageSize).toNat + pageSize.toNat)
                (splitTextIntoVerses text).length)).drop ((page - 1) * pageSize).toNat,
            calculateMetaData ((splitTextIntoVerses text).length : Int) page pageSize,
            none)⟩ := by
  have hidn : ¬ id < 1 := by omega
  unfold isInt at hpageInt hsizeInt
  have hp1 : wrapInt (page - 1) = page - 1 := wrapInt_of_isInt _ (by unfold isInt; omega)
  have hnn : 0 ≤ (page - 1) * pageSize := by nlinarith
  have hst : wrapInt ((page - 1) * pageSize) = (page - 1) * pageSize :=
    wrapInt_of_isInt _ (by unfold isInt; omega)
  have hsum : isInt ((page - 1) * pageSize + pageSize) := by
    unfold isInt
    rcases (by omega : page = 1 ∨ 2 ≤ page) with h | h
    · subst h; simp; omega
    · have : pageSize ≤ (page - 1) * pageSize := by nlinarith
      omega
  have hen : wrapInt ((page - 1) * pageSize + pageSize) = (page - 1) * pageSize + pageSize :=
    wrapInt_of_isInt _ hsum
  simp only [SongModel.GetLyrics, if_neg hidn, htext, hp1, hst, hen]
  generalize hvs : splitTextIntoVerses text = vs at *
  generalize hm : (page - 1) * pageSize = start at *
  obtain ⟨st, rfl⟩ := Int.eq_ofNat_of_zero_le hnn
  obtain ⟨ps, rfl⟩ := Int.eq_ofNat_of_zero_le (by omega : (0 : Int) ≤ pageSize)
  have hend : (if (st : Int) + (ps : Int) > (vs.length : Int) then (vs.length : Int)
      else (st : Int) + (ps : Int)) = ((min (st + ps) vs.length : Nat) : Int) := by
    split <;> omega
  rw [hend, sliceExpr_of_bounds vs st (min (st + ps) vs.length) (by omega) (by omega)]
  simp

end data

namespace data

/-- Witness of C3, the case the spec names: page 1 with page size 1 on a
three-verse song gives exactly the first verse and
`Metadata{page:1, pageSize:1, firstPage:1, lastPage:3, totalRecords:3}`. -/
theorem getLyrics_page_within_witness :
    (SongModel.mk (fixture.oneSongDB .sqlErrNoRows)).GetLyrics fixture.splitOnBlankLine 1 1 1 =
      ⟨[.selectText 1], .returned (["one"], ⟨1, 1, 1, 3, 3⟩, none)⟩ :=
  (getLyrics_page_within ⟨fixture.oneSongDB .sqlErrNoRows⟩ fixture.splitOnBlankLine 1 1 1
    fixture.lyricText (by decide) rfl (by decide) (by decide) (by decide) (by decide)
    (by decide) (by decide)).trans (by decide)

/-- C1: on a stored three-verse song, the page that starts exactly at the end
(page 4 of size 1, start 3) gives the empty sequence and a nil error, but a
page that starts beyond it (page 3 of size 2, start 4) makes
`verses[start:end]` panic with start 4 above end 3: `GetLyrics` does not
return. -/
theorem getLyrics_page_beyond_last_panics :
    ((SongModel.mk (fixture.oneSongDB .sqlErrNoRows)).GetLyrics
        fixture.splitOnBlankLine 1 4 1).result =
      .returned ([], calculateMetaData 3 4 1, none) ∧
    ((SongModel.mk (fixture.oneSongDB .sqlErrNoRows)).GetLyrics
        fixture.splitOnBlankLine 1 3 2).result = .panicked := by
  decide

/-- C4: the slice bounds of `GetLyrics` are not clamped. On a stored
three-verse song, page 0 with page size 1 computes start -1, and page 1 with
page size -1 computes end -1 below start 0; in both cases `verses[start:end]`
panics instead of yielding the empty sequence. -/
theorem getLyrics_bounds_not_clamped :
    wrapInt (wrapInt (0 - 1) * 1) = -1 ∧
    ((SongModel.mk (fixture.oneSongDB .sqlErrNoRows)).GetLyrics
        fixture.splitOnBlankLine 1 0 1).result = .panicked ∧
    wrapInt (wrapInt (wrapInt (1 - 1) * (-1)) + (-1)) = -1 ∧
    ((SongModel.mk (fixture.oneSongDB .sqlErrNoRows)).GetLyrics
        fixture.splitOnBlankLine 1 1 (-1)).result = .panicked := by
  decide

/-- Witness of C9: a query that times out, a cursor whose second `rows.Scan`
fails after one decoded row, and a cursor that reports an error after one
decoded row. -/
theorem getAll_storage_failure_witness :
    ((SongModel.mk (fixture.failingDB (.other "context deadline exceeded"))).GetAll
        "" "" "" "" "" (fixture.listFilters 1 5)).result =
      ([], Metadata.zero, some (.storage (.other "context deadline exceeded"))) ∧
    ((SongModel.mk (fixture.cursorDB
        ⟨[.ok (2, fixture.storedSong), .err (.other "converting NULL to string")], none⟩)).GetAll
        "" "" "" "" "" (fixture.listFilters 1 5)).result =
      ([], Metadata.zero, some (.storage (.other "converting NULL to string"))) ∧
    ((SongModel.mk (fixture.cursorDB
        ⟨[.ok (1, fixture.storedSong)], some (.other "connection reset")⟩)).GetAll
        "" "" "" "" "" (fixture.listFilters 1 5)).result =
      ([], Metadata.zero, some (.storage (.other "connection reset"))) :=
  ⟨(getAll_storage_failure ⟨fixture.failingDB (.other "context deadline exceeded")⟩
      "" "" "" "" "" (fixture.listFilters 1 5)).1 _ rfl,
    (getAll_storage_failure ⟨fixture.cursorDB
        ⟨[.ok (2, fixture.storedSong), .err (.other "converting NULL to string")], none⟩⟩
      "" "" "" "" "" (fixture.listFilters 1 5)).2.1 _ [(2, fixture.storedSong)] _ [] rfl rfl,
    (getAll_storage_failure ⟨fixture.cursorDB
        ⟨[.ok (1, fixture.storedSong)], some (.other "connection reset")⟩⟩
      "" "" "" "" "" (fixture.listFilters 1 5)).2.2 _ [(1, fixture.storedSong)] _ rfl rfl rfl⟩

end data

namespace data

/-- The last count column of a window whose rows all carry the count `n`. -/
theorem getLastD_window_counts (n d : Int) (l : List Song) :
    ((l.map (fun song => ((n, song) : Int × Song))).map Prod.fst).getLastD d =
      if l = [] then d else n := by
  induction l generalizing d with
  | nil => rfl
  | cons a t ih =>
    simp only [List.map_cons, List.getLastD_cons, ih n]
    simp

/-- What `GetAll` computes on a storage that answers the `SELECT` with the
window of the rows found, each carrying the count of all rows found, for a
limit and offset that storage accepts (neither negative): the window, a nil
error, and the calculator applied to the count that the last scanned row
carried, which is the total when the window holds at least one row and the
initial value 0 of `totalRecords` when it holds none. -/
theorem getAll_metadata_of_window (found : List Song)
    (song group release text link : String) (filters : Filters)
    (hlimit : 0 ≤ filters.limit) (hoffset : 0 ≤ filters.offset) :
    ((SongModel.mk (fixture.pagedDB found)).GetAll song group release text link
        filters).result =
      ((found.drop filters.offset.toNat).take filters.limit.toNat,
        (if filters.offset < (found.length : Int) ∧ 0 < filters.limit then
          calculateMetaData (found.length : Int) filters.Page filters.PageSize
        else Metadata.zero),
        none) := by
  have h1 : ¬ filters.limit < 0 := by omega
  have h2 : ¬ filters.offset < 0 := by omega
  have hmap : ((found.drop filters.offset.toNat).take filters.limit.toNat).map
      (fun song => ScanResult.ok ((found.length : Int), song)) =
      (((found.drop filters.offset.toNat).take filters.limit.toNat).map
        (fun song => (((found.length : Int), song) : Int × Song))).map ScanResult.ok := by
    rw [List.map_map]
    rfl
  have hsnd : (((found.drop filters.offset.toNat).take filters.limit.toNat).map
      (fun song => (((found.length : Int), song) : Int × Song))).map Prod.snd =
      (found.drop filters.offset.toNat).take filters.limit.toNat := by
    rw [List.map_map]
    exact List.map_id _
  simp only [SongModel.GetAll, fixture.pagedDB, fixture.pagedSelect, if_neg h1, if_neg h2]
  rw [hmap, scanRows_ok, getLastD_window_counts, hsnd, List.nil_append]
  by_cases hw : (found.drop filters.offset.toNat).take filters.limit.toNat = []
  · have hc : ¬ (filters.offset < (found.length : Int) ∧ 0 < filters.limit) := by
      intro hc
      have hlen := congrArg List.length hw
      simp only [List.length_take, List.length_drop, List.length_nil] at hlen
      omega
    rw [if_pos hw, if_neg hc, hw]
    rfl
  · have hc : filters.offset < (found.length : Int) ∧ 0 < filters.limit := by
      have hlen : ((found.drop filters.offset.toNat).take filters.limit.toNat).length ≠ 0 := by
        intro h0
        exact hw (List.length_eq_zero.mp h0)
      simp only [List.length_take, List.length_drop] at hlen
      omega
    rw [if_neg hw, if_pos hc]

/-- An instance of `getAll_metadata_of_window`: the first page of five over
three rows found carries the total 3; on the second page no row is scanned
and `totalRecords` keeps its initial value 0. -/
theorem getAll_metadata_of_window_witness :
    ((SongModel.mk (fixture.pagedDB fixture.threeSongs)).GetAll "" "" "" "" ""
        (fixture.listFilters 1 5)).result =
      (fixture.threeSongs, ⟨1, 5, 1, 1, 3⟩, none) ∧
    ((SongModel.mk (fixture.pagedDB fixture.threeSongs)).GetAll "" "" "" "" ""
        (fixture.listFilters 2 5)).result =
      ([], Metadata.zero, none) :=
  ⟨(getAll_metadata_of_window fixture.threeSongs "" "" "" "" "" (fixture.listFilters 1 5)
      (by decide) (by decide)).trans (by decide),
    (getAll_metadata_of_window fixture.threeSongs "" "" "" "" "" (fixture.listFilters 2 5)
      (by decide) (by decide)).trans (by decide)⟩

/-- C2: `GetAll` loses the total count on a page past the last. Three rows
match and page 2 of size 5 is requested: the window is empty, no row is
scanned, `totalRecords` keeps its initial value 0 and the Metadata returned is
zero-valued, where the calculator applied to the total 3, page 2 and page
size 5 gives `{2, 5, 1, 1, 3}`. The sibling `GetLyrics` on an empty page
(page 4 of size 1 over three verses) does return the Metadata of the total,
`{4, 1, 1, 3, 3}`. -/
theorem getAll_metadata_past_last_page :
    ((SongModel.mk (fixture.pagedDB fixture.threeSongs)).GetAll "" "" "" "" ""
        (fixture.listFilters 2 5)).result = ([], Metadata.zero, none) ∧
    calculateMetaData (fixture.threeSongs.length : Int) (fixture.listFilters 2 5).Page
        (fixture.listFilters 2 5).PageSize = ⟨2, 5, 1, 1, 3⟩ ∧
    ((SongModel.mk (fixture.pagedDB fixture.threeSongs)).GetAll "" "" "" "" ""
        (fixture.listFilters 2 5)).result.2.1 ≠
      calculateMetaData (fixture.threeSongs.length : Int) (fixture.listFilters 2 5).Page
        (fixture.listFilters 2 5).PageSize ∧
    ((SongModel.mk (fixture.oneSongDB .sqlErrNoRows)).GetLyrics
        fixture.splitOnBlankLine 1 4 1).result =
      .returned ([], ⟨4, 1, 1, 3, 3⟩, none) := by
  decide

end data

namespace api

/-- C5: `showLyricsHandler` has no validation gate. For the request
`GET /v1/song/1/lyrics?page=1&page_size=1000` it calls `GetLyrics` with page
size 1000, above the bound 100, and answers 200; for `page=0` it calls
`GetLyrics` with page 0, which panics. `listSongsHandler` on the same query
strings answers with a validation failure and makes no data-layer call. -/
theorem showLyricsHandler_not_validated :
    showLyricsHandler (fixture.app (fixture.oneSongDB .sqlErrNoRows))
        ⟨[("page", "1"), ("page_size", "1000")], [("id", "1")], ""⟩ =
      [.GetLyrics 1 1 1000,
        .writeJSON 200 (.lyrics ["one", "two", "three"] ⟨1, 1000, 1, 1, 3⟩)] ∧
    showLyricsHandler (fixture.app (fixture.oneSongDB .sqlErrNoRows))
        ⟨[("page", "0")], [("id", "1")], ""⟩ =
      [.GetLyrics 1 0 1, .panic] ∧
    listSongsHandler (fixture.app (fixture.oneSongDB .sqlErrNoRows))
        ⟨[("page", "1"), ("page_size", "1000")], [], ""⟩ =
      [.failedValidationResponse [("page_size", "must be between 1 and 100")]] ∧
    listSongsHandler (fixture.app (fixture.oneSongDB .sqlErrNoRows))
        ⟨[("page", "0")], [], ""⟩ =
      [.failedValidationResponse [("page", "must be between 1 and 10000000")]] := by
  decide

/-- C10: `addSongHandler` swallows a storage error of `Insert` other than
`ErrAlreadyExists`. When the `INSERT` times out, `Insert` returns that error,
and the handler still writes the 201 Created response with the song, whose ID
and timestamps are zero-valued. -/
theorem addSongHandler_writes_created_after_failed_insert :
    ((fixture.app (fixture.oneSongDB (.other "context deadline exceeded"))).models.Songs.Insert
        ⟨0, "Tune", "Band", zeroTime, zeroTime, "2006", fixture.lyricText,
          "http://example.org/tune"⟩).result.2 =
      some (.storage (.other "context deadline exceeded")) ∧
    addSongHandler (fixture.app (fixture.oneSongDB (.other "context deadline exceeded")))
        ⟨[], [], "Tune/Band"⟩ =
      [.Insert ⟨0, "Tune", "Band", zeroTime, zeroTime, "2006", fixture.lyricText,
          "http://example.org/tune"⟩,
        .writeJSON 201 (.song ⟨0, "Tune", "Band", zeroTime, zeroTime, "2006",
          fixture.lyricText, "http://example.org/tune"⟩)] := by
  decide

end api

/-! ## The validation gate of `listSongsHandler` -/

namespace validator

/-- After `AddError` the validator is not valid. -/
theorem Validator.AddError_not_valid (v : Validator) (key message : String) :
    (v.AddError key message).Valid = false := by
  unfold Validator.AddError Validator.Valid
  split
  · rename_i h
    cases hE : v.Errors with
    | nil => simp [hE] at h
    | cons a t => rfl
  · simp

/-- A validator that is valid after `Check` was valid before, and the checked
condition held. -/
theorem Validator.Check_valid (v : Validator) (ok : Bool) (key message : String)
    (h : (v.Check ok key message).Valid = true) : ok = true ∧ v.Valid = true := by
  unfold Validator.Check at h
  cases ok with
  | true => exact ⟨rfl, by simpa using h⟩
  | false =>
    simp only [Bool.false_eq_true, if_false] at h
    rw [Validator.AddError_not_valid] at h
    exact absurd h (by decide)

end validator

namespace api

/-- The sibling path of C5: `listSongsHandler` reaches `GetAll` only with a
page in `[1, 10000000]` and a page size in `[1, 100]`, and only when the
helper `readInt` recorded no error. -/
theorem listSongsHandler_gate (app : application) (r : Request)
    (song group release text link : String) (filters : data.Filters)
    (h : Event.GetAll song group release text link filters ∈ listSongsHandler app r) :
    1 ≤ filters.Page ∧ filters.Page ≤ 10000000 ∧
    1 ≤ filters.PageSize ∧ filters.PageSize ≤ 100 ∧
    (app.readInt r.query "page_size" 5
      (app.readInt r.query "page" 1 validator.New).2).2.Valid = true := by
  unfold listSongsHandler at h
  simp only at h
  split at h
  · simp at h
  · rename_i hv
    have hvalid : (data.ValidateFilters
        (app.readInt r.query "page_size" 5 (app.readInt r.query "page" 1 validator.New).2).2
        { Page := (app.readInt r.query "page" 1 validator.New).1,
          PageSize := (app.readInt r.query "page_size" 5
            (app.readInt r.query "page" 1 validator.New).2).1,
          SortKey := app.readString r.query "sort" "id",
          SortSafelist := listSortSafelist }).Valid = true := by
      simpa using hv
    unfold data.ValidateFilters at hvalid
    obtain ⟨_, h3⟩ := validator.Validator.Check_valid _ _ _ _ hvalid
    obtain ⟨hps, h2⟩ := validator.Validator.Check_valid _ _ _ _ h3
    obtain ⟨hp, h1⟩ := validator.Validator.Check_valid _ _ _ _ h2
    simp only [decide_eq_true_eq] at hps hp
    have hf : filters = data.Filters.mk (app.readInt r.query "page" 1 validator.New).1
        (app.readInt r.query "page_size" 5 (app.readInt r.query "page" 1 validator.New).2).1
        (app.readString r.query "sort" "id") listSortSafelist := by
      split at h
      · simp at h
        exact h.2.2.2.2.2
      · split at h <;> simp at h <;> exact h.2.2.2.2.2
    subst hf
    exact ⟨hp.1, hp.2, hps.1, hps.2, h1⟩

end api

/-! ## Reading a song page by page: the pages partition the verses -/

namespace data

/-- A page that starts inside the verse sequence, counted from 0: page `k + 1`
of size `ps` is the `ps` verses after the first `k * ps`, or those that are
left. -/
theorem lyricsPage_of_start_lt (s : SongModel) (splitTextIntoVerses : String → List String)
    (id : Int) (text : String) (k ps : Nat)
    (hid : 1 ≤ id) (htext : s.DB.selectText id = .ok text)
    (hps : 1 ≤ ps) (hpsInt : isInt (ps : Int))
    (hlen : (splitTextIntoVerses text).length ≤ 4611686018427387904)
    (hstart : k * ps < (splitTextIntoVerses text).length) :
    lyricsPage s splitTextIntoVerses id ((k : Int) + 1) (ps : Int) =
      some (((splitTextIntoVerses text).drop (k * ps)).take ps) := by
  have hidn : ¬ id < 1 := by omega
  unfold isInt at hpsInt
  have hk : k ≤ k * ps := Nat.le_mul_of_pos_right k (by omega)
  have hp1 : wrapInt ((k : Int) + 1 - 1) = (k : Int) :=
    (wrapInt_of_isInt _ (by unfold isInt; omega)).trans (by omega)
  have hprod : (k : Int) * (ps : Int) = ((k * ps : Nat) : Int) := by push_cast; rfl
  have hst : wrapInt ((k : Int) * (ps : Int)) = ((k * ps : Nat) : Int) := by
    rw [hprod]
    exact wrapInt_of_isInt _ (by unfold isInt; omega)
  have hsum : ps ≤ k * ps ∨ k * ps = 0 := by
    rcases Nat.eq_zero_or_pos k with h | h
    · right; simp [h]
    · left; exact Nat.le_mul_of_pos_left ps h
  have hen : wrapInt (((k * ps : Nat) : Int) + (ps : Int)) = ((k * ps + ps : Nat) : Int) := by
    rw [wrapInt_of_isInt _ (by unfold isInt; omega)]
    push_cast
    rfl
  simp only [lyricsPage, SongModel.GetLyrics, if_neg hidn, htext, hp1, hst, hen]
  generalize splitTextIntoVerses text = vs at *
  generalize k * ps = st at *
  have hend : (if ((st + ps : Nat) : Int) > (vs.length : Int) then (vs.length : Int)
      else ((st + ps : Nat) : Int)) = ((min (st + ps) vs.length : Nat) : Int) := by
    split <;> omega
  rw [hend, sliceExpr_of_bounds vs st (min (st + ps) vs.length) (by omega) (by omega)]
  simp only [List.drop_take]
  refine congrArg some ?_
  rw [List.take_eq_take, List.length_drop]
  omega

/-- The pages `1, ..., n` concatenated are the first `n * ps` verses, as long
as page `n` starts inside the verse sequence. -/
theorem lyricsPages_eq_take (s : SongModel) (splitTextIntoVerses : String → List String)
    (id : Int) (text : String) (ps : Nat)
    (hid : 1 ≤ id) (htext : s.DB.selectText id = .ok text)
    (hps : 1 ≤ ps) (hpsInt : isInt (ps : Int))
    (hlen : (splitTextIntoVerses text).length ≤ 4611686018427387904) (n : Nat)
    (hn : n * ps < (splitTextIntoVerses text).length + ps) :
    lyricsPages s splitTextIntoVerses id (ps : Int) n =
      some ((splitTextIntoVerses text).take (n * ps)) := by
  induction n with
  | zero => simp [lyricsPages]
  | succ k ih =>
    have hk : k * ps < (splitTextIntoVerses text).length := by
      rw [Nat.succ_mul] at hn
      omega
    rw [lyricsPages, ih (by omega),
      lyricsPage_of_start_lt s splitTextIntoVerses id text k ps hid htext hps hpsInt hlen hk,
      Nat.succ_mul, List.take_add]

end data

namespace data

/-- C11: the pages of a song partition its verses. For an existing song whose
text splits into `vs` and a page size of at least 1, the verse slices that
`GetLyrics` returns for the pages `1, 2, ..., ceil(len(vs)/pageSize)`,
concatenated in that order, are exactly `vs`; each of these pages holds at
most `pageSize` verses and each one but the last holds exactly `pageSize`.
The page size is a Go `int` and the slice has at most `2^62` elements. -/
theorem getLyrics_pages_partition (s : SongModel)
    (splitTextIntoVerses : String → List String) (id pageSize : Int) (text : String)
    (hid : 1 ≤ id) (htext : s.DB.selectText id = .ok text)
    (hsize : 1 ≤ pageSize) (hsizeInt : isInt pageSize)
    (hlen : (splitTextIntoVerses text).length ≤ 4611686018427387904) :
    lyricsPages s splitTextIntoVerses id pageSize
        (((splitTextIntoVerses text).length + pageSize.toNat - 1) / pageSize.toNat) =
      some (splitTextIntoVerses text) ∧
    ∀ k : Nat, 1 ≤ k →
      k ≤ ((splitTextIntoVerses text).length + pageSize.toNat - 1) / pageSize.toNat →
      ∃ page, lyricsPage s splitTextIntoVerses id (k : Int) pageSize = some page ∧
        page.length ≤ pageSize.toNat ∧
        (k < ((splitTextIntoVerses text).length + pageSize.toNat - 1) / pageSize.toNat →
          page.length = pageSize.toNat) := by
  obtain ⟨ps, rfl⟩ := Int.eq_ofNat_of_zero_le (by omega : (0 : Int) ≤ pageSize)
  simp only [Int.toNat_ofNat]
  have hps : 1 ≤ ps := by omega
  have hdm := Nat.div_add_mod ((splitTextIntoVerses text).length + ps - 1) ps
  have hmod := Nat.mod_lt ((splitTextIntoVerses text).length + ps - 1) (by omega : ps > 0)
  generalize hn : ((splitTextIntoVerses text).length + ps - 1) / ps = n at *
  have hcomm : n * ps = ps * n := Nat.mul_comm n ps
  refine ⟨?_, ?_⟩
  · rw [lyricsPages_eq_take s splitTextIntoVerses id text ps hid htext hps hsizeInt hlen n
      (by omega)]
    exact congrArg some (List.take_of_length_le (by omega))
  · intro k hk1 hkn
    obtain ⟨j, rfl⟩ : ∃ j, k = j + 1 := ⟨k - 1, by omega⟩
    have hmul : (j + 1) * ps ≤ n * ps := Nat.mul_le_mul_right ps hkn
    rw [Nat.succ_mul] at hmul
    have hj : j * ps < (splitTextIntoVerses text).length := by omega
    have hcast : ((j + 1 : Nat) : Int) = (j : Int) + 1 := by push_cast; rfl
    refine ⟨((splitTextIntoVerses text).drop (j * ps)).take ps, ?_, ?_, ?_⟩
    · rw [hcast]
      exact lyricsPage_of_start_lt s splitTextIntoVerses id text j ps hid htext hps hsizeInt
        hlen hj
    · rw [List.length_take]
      omega
    · intro hlt
      have hmul2 : (j + 2) * ps ≤ n * ps := Nat.mul_le_mul_right ps hlt
      have h2 : (j + 2) * ps = j * ps + ps + ps := by ring
      rw [List.length_take, List.length_drop]
      omega

/-- Witness of C11: the three-verse song read in pages of size 2 has
`ceil(3/2) = 2` pages, `["one", "two"]` and `["three"]`, which concatenate to
the three verses. -/
theorem getLyrics_pages_partition_witness :
    lyricsPages ⟨fixture.oneSongDB .sqlErrNoRows⟩ fixture.splitOnBlankLine 1 2 2 =
      some ["one", "two", "three"] ∧
    lyricsPage ⟨fixture.oneSongDB .sqlErrNoRows⟩ fixture.splitOnBlankLine 1 1 2 =
      some ["one", "two"] ∧
    lyricsPage ⟨fixture.oneSongDB .sqlErrNoRows⟩ fixture.splitOnBlankLine 1 2 2 =
      some ["three"] :=
  ⟨(getLyrics_pages_partition ⟨fixture.oneSongDB .sqlErrNoRows⟩ fixture.splitOnBlankLine 1 2
      fixture.lyricText (by decide) rfl (by decide) (by decide) (by decide)).1,
    by decide, by decide⟩

end data
